import Mathlib

/-!
Verification of the statsboxd core (scraper.py, app.py, data_engine.py)
against its natural-language specification. The Python code is shallowly
embedded: dictionaries become structures, None becomes Option, raised
exceptions become Except/Option, and the external boundaries (HTTP fetch,
TMDB search, random draws) become explicit function or index parameters,
matching the external-interface contracts of the spec. Python string
primitives are re-implemented over List Char so that every definition is
kernel-computable; they implement the ASCII behaviour of the Python
originals (the scraped fields the claims exercise are ASCII).
-/

namespace Statsboxd

/-! ## Python string primitives -/

/-- ASCII case of Python str.lower for one character. -/
def pyLowerChar (c : Char) : Char :=
  if 'A' ≤ c && c ≤ 'Z' then Char.ofNat (c.toNat + 32) else c

/-- Python str.lower (ASCII range). -/
def pyLower (s : String) : String := String.mk (s.toList.map pyLowerChar)

/-- Does the first list start with the second one? -/
def listStartsWith : List Char → List Char → Bool
  | _, [] => true
  | [], _ :: _ => false
  | a :: as, b :: bs => a == b && listStartsWith as bs

/-- Python str.startswith. -/
def pyStartsWith (s pre : String) : Bool := listStartsWith s.toList pre.toList

/-- Python str.endswith. -/
def pyEndsWith (s suf : String) : Bool :=
  listStartsWith s.toList.reverse suf.toList.reverse

/-- ASCII digit test. -/
def pyIsDigitChar (c : Char) : Bool := '0' ≤ c && c ≤ '9'

/-- Python str.isdigit: non-empty and all digits (ASCII range). -/
def pyIsDigit (s : String) : Bool :=
  !s.toList.isEmpty && s.toList.all pyIsDigitChar

/-- Decimal value of a digit list. -/
def digitsToNat (l : List Char) : Nat :=
  l.foldl (fun acc c => acc * 10 + (c.toNat - 48)) 0

/-- Python int(s) for the strings that can reach it here: an optional
leading plus sign followed by digits (further int() niceties such as
surrounding whitespace or digit-group underscores cannot occur in the
CSS-class and date tokens this models). none models a raised ValueError. -/
def pyInt? (s : String) : Option Nat :=
  let l := match s.toList with
    | '+' :: rest => rest
    | l => l
  if !l.isEmpty && l.all pyIsDigitChar then some (digitsToNat l) else none

/-- Helper for pySplitChar: accumulates the current field in reverse. -/
def splitOnCharAux (c : Char) : List Char → List Char → List (List Char)
  | [], acc => [acc.reverse]
  | x :: xs, acc =>
    if x == c then acc.reverse :: splitOnCharAux c xs []
    else splitOnCharAux c xs (x :: acc)

/-- Python str.split(c) for a one-character separator (keeps empty fields). -/
def pySplitChar (c : Char) (s : String) : List String :=
  (splitOnCharAux c s.toList []).map String.mk

/-- Python str.strip(c) for a one-character argument. -/
def pyStripChar (c : Char) (s : String) : String :=
  String.mk (((s.toList.dropWhile (fun x => x == c)).reverse.dropWhile
    (fun x => x == c)).reverse)

/-- Python str.rstrip(c) for a one-character argument. -/
def pyRstripChar (c : Char) (s : String) : String :=
  String.mk ((s.toList.reverse.dropWhile (fun x => x == c)).reverse)

/-- ASCII whitespace test (the whitespace Python str.strip removes, ASCII
range). -/
def pyIsSpace (c : Char) : Bool :=
  c == ' ' || c == '\t' || c == '\n' || c == '\r'

/-- Python str.strip() with no argument. -/
def pyStrip (s : String) : String :=
  String.mk (((s.toList.dropWhile pyIsSpace).reverse.dropWhile pyIsSpace).reverse)

/-- Substring occurrence over character lists. -/
def containsSub : List Char → List Char → Bool
  | l, sub =>
    match l with
    | [] => sub.isEmpty
    | _ :: xs => listStartsWith l sub || containsSub xs sub

/-- Python membership test `sub in s` on strings. -/
def pyContains (s sub : String) : Bool := containsSub s.toList sub.toList

/-- The exact value of the Python float expression `n / 2.0` for a natural
n (all ratings in the system are such exact halves). -/
def pyHalf (n : Nat) : ℚ := mkRat n 2

/-- True for the rationals of the form n / 2 with n natural. -/
def isHalfStep (q : ℚ) : Prop := ∃ n : Nat, q = pyHalf n

/-- The half-star lattice 0.0, 0.5, ..., 5.0 named by the spec. -/
def halfStarLattice : List ℚ := (List.range 11).map pyHalf

/-! ## Data model -/

/-- One watched-film record as built by scraper.py and merged by sync_batch
in app.py. The Python entry dict carries keys title, year, rating, date,
genre; poster_url and release_date are absent (here none) until hydration
sets them. -/
structure Entry where
  title : String
  year : String
  rating : ℚ
  date : Option String
  genre : List String
  poster_url : Option String := none
  release_date : Option String := none
deriving Repr, DecidableEq

/-- One record of the local fallback database (movies.json) as loaded by
_load_movies_db. The JSON records carry title, year, genre, poster_url; the
rating key is absent (none) unless written at runtime. -/
structure CatalogEntry where
  title : String
  year : String
  genre : List String
  poster_url : String
  rating : Option ℚ := none
deriving Repr, DecidableEq

/-- Scraper._infer_genre: first case-insensitive title match in the local
fallback database, else the Uncategorized default. -/
def infer_genre (db : List CatalogEntry) (title : String) : List String :=
  match db.find? (fun movie => pyLower movie.title == pyLower title) with
  | some movie => movie.genre
  | none => ["Uncategorized"]

/-! ## Diary date parsing (scraper.py lines 72-97) -/

def isLeapYear (y : Nat) : Bool :=
  y % 4 == 0 && (y % 100 != 0 || y % 400 == 0)

def daysInMonth (y m : Nat) : Nat :=
  if m == 2 then (if isLeapYear y then 29 else 28)
  else if m == 4 || m == 6 || m == 9 || m == 11 then 30
  else 31

/-- Validity domain of datetime.date(y, m, d); outside it the constructor
raises ValueError. -/
def dateValid (y m d : Nat) : Bool :=
  1 ≤ y && y ≤ 9999 && 1 ≤ m && m ≤ 12 && 1 ≤ d && d ≤ daysInMonth y m

/-- The right-to-left scan for the first 4-digit path segment. -/
def findYearIdx (parts : List String) : Option Nat :=
  (List.range parts.length).reverse.find?
    (fun i => pyIsDigit (parts.getD i "") && (parts.getD i "").toList.length == 4)

/-- The date-parsing block of scrape_page: strip slashes, split the path,
scan right-to-left for a 4-digit year, take the following numeric segments
as month and day (defaulting to 1), and build datetime.date. none is the
Python watched_date = None outcome (no year found, a zero year which is
falsy, or ValueError from datetime.date). -/
def parseDiaryDate (href : String) : Option (Nat × Nat × Nat) :=
  let parts := pySplitChar '/' (pyStripChar '/' href)
  match findYearIdx parts with
  | none => none
  | some i =>
    let y := (pyInt? (parts.getD i "")).getD 0
    if y == 0 then none
    else
      let hasMonth := decide (i + 1 < parts.length) && pyIsDigit (parts.getD (i+1) "")
      let m := if hasMonth then (pyInt? (parts.getD (i+1) "")).getD 1 else 1
      let d := if hasMonth && decide (i + 2 < parts.length) && pyIsDigit (parts.getD (i+2) "")
        then (pyInt? (parts.getD (i+2) "")).getD 1 else 1
      if dateValid y m d then some (y, m, d) else none

/-- Left-pad a decimal rendering with zeros. -/
def padZero (w n : Nat) : String :=
  String.mk (List.replicate (w - (Nat.repr n).toList.length) '0' ++ (Nat.repr n).toList)

/-- strftime("%Y-%m-%d") on a valid date. -/
def formatDate (ymd : Nat × Nat × Nat) : String :=
  padZero 4 ymd.1 ++ "-" ++ padZero 2 ymd.2.1 ++ "-" ++ padZero 2 ymd.2.2

/-! ## Rating extraction (the rated-n CSS-class convention) -/

/-- Shared rating logic of both page kinds: the first class token starting
with rated- decides; its numeric part over 2.0 is the rating, an unparsable
numeric part leaves 0.0. -/
def ratingFromClasses (classes : List String) : ℚ :=
  match classes.find? (fun cls => pyStartsWith cls "rated-") with
  | none => 0
  | some cls =>
    match pyInt? ((pySplitChar '-' cls).getD 1 "") with
    | some n => pyHalf n
    | none => 0

/-! ## Diary pages (Scraper.scrape_page) -/

/-- One tr.diary-entry-row, abstracted to the fields the code reads.
dateCell: none = no td.col-daydate (row skipped); some none = cell without
an anchor (row skipped); some (some none) = anchor without an href
attribute (KeyError aborts the whole page); some (some (some href)) = the
link path. nameText: the stripped text of the nested name link, none when
any of the td.col-production / .name / a layers is missing (title falls
back to Unknown). releaseYearText: stripped text of td.col-releaseyear,
none when the cell is missing. ratingClasses: class list of the rating
span, none when td.col-rating or span.rating is missing. -/
structure DiaryRow where
  dateCell : Option (Option (Option String))
  nameText : Option String
  releaseYearText : Option String
  ratingClasses : Option (List String)
deriving Repr, DecidableEq

/-- A fetched diary page body: the diary rows and whether an a.next
pagination link is present. -/
structure DiaryPage where
  rows : List DiaryRow
  hasNextLink : Bool
deriving Repr, DecidableEq

/-- The page-level result dict of both scraper methods. -/
structure ScrapeResult where
  entries : List Entry
  has_next : Bool
deriving Repr, DecidableEq

/-- The per-row body of the scrape_page loop. ok none = continue (missing
date cell or link); error = an exception escapes the row (the KeyError on a
missing href, or the AttributeError from calling strftime on the
watched_date = None of an unparsable date at entry construction). -/
def processDiaryRow (db : List CatalogEntry) (row : DiaryRow) :
    Except Unit (Option Entry) :=
  match row.dateCell with
  | none => .ok none
  | some none => .ok none
  | some (some none) => .error ()
  | some (some (some href)) =>
    let watchedDate := parseDiaryDate href
    let title := match row.nameText with
      | some t => t
      | none => "Unknown"
    let year := match row.releaseYearText with
      | some t => t
      | none => ""
    let rating := match row.ratingClasses with
      | some cls => ratingFromClasses cls
      | none => 0
    match watchedDate with
    | none => .error ()
    | some ymd =>
      .ok (some { title := title, year := year, rating := rating,
                  date := some (formatDate ymd), genre := infer_genre db title })

/-- The row loop of scrape_page: a raised exception aborts the remaining
rows (it propagates to the outer try of the method). -/
def processDiaryRows (db : List CatalogEntry) : List DiaryRow → Except Unit (List Entry)
  | [] => .ok []
  | r :: rest => do
    let e? ← processDiaryRow db r
    let rest? ← processDiaryRows db rest
    pure (match e? with
      | some e => e :: rest?
      | none => rest?)

/-- Scraper.scrape_page. The fetch parameter stands for
self.scraper.get(url): error is a raised transport error, ok carries the
status code and the parsed page body. 404 and any other non-200 status give
the empty page; an exception escaping the row loop is caught by the outer
except and also gives the empty page. -/
def scrape_page (db : List CatalogEntry) (fetch : Except Unit (Nat × DiaryPage)) :
    ScrapeResult :=
  match fetch with
  | .error _ => { entries := [], has_next := false }
  | .ok (status, page) =>
    if status == 404 then { entries := [], has_next := false }
    else if status != 200 then { entries := [], has_next := false }
    else if page.rows.isEmpty then { entries := [], has_next := false }
    else
      match processDiaryRows db page.rows with
      | .error _ => { entries := [], has_next := false }
      | .ok es => { entries := es, has_next := page.hasNextLink }

/-! ## Films pages (Scraper.scrape_films_page) -/

/-- One div inside a poster item, abstracted to the attributes the selector
cascade reads. -/
structure FilmDiv where
  itemName : Option String
  filmName : Option String
  releaseYearAttr : Option String
  isFilmPoster : Bool
deriving Repr, DecidableEq

/-- One poster-grid item. imgAlt: none = no img child; some a = an img with
alt attribute a (inner none = alt missing, so .get defaults to Unknown).
viewingRatingClasses: class list of the span.rating inside
p.poster-viewingdata, none when either element is missing. -/
structure FilmsItem where
  divs : List FilmDiv
  imgAlt : Option (Option String)
  viewingRatingClasses : Option (List String)
deriving Repr, DecidableEq

/-- A fetched films page body: the poster items found by the first selector
strategy that matches (li.griditem, then li.poster-container, then
.poster-list li) and the pagination flag. -/
structure FilmsPage where
  items : List FilmsItem
  hasNextLink : Bool
deriving Repr, DecidableEq

/-- Python string truthiness as used in the or-chains: an empty or missing
attribute falls through. -/
def truthyStr (o : Option String) : Option String :=
  match o with
  | some s => if s.toList.isEmpty then none else some s
  | none => none

/-- The div cascade of scrape_films_page: first div with data-item-name,
else first div with data-film-name, else first div with class film-poster. -/
def resolveDiv (item : FilmsItem) : Option FilmDiv :=
  match item.divs.find? (fun d => d.itemName.isSome) with
  | some d => some d
  | none =>
    match item.divs.find? (fun d => d.filmName.isSome) with
    | some d => some d
    | none => item.divs.find? (fun d => d.isFilmPoster)

/-- Title and year before the parenthesized-year cleanup: from the resolved
div (data-item-name or data-film-name, empty strings falsy, Unknown
default; year from data-film-release-year defaulting to empty), else from
the img alt attribute, else Unknown. -/
def filmsRawTitleYear (item : FilmsItem) : String × String :=
  match resolveDiv item with
  | some d =>
    let t := match truthyStr d.itemName with
      | some s => s
      | none =>
        match truthyStr d.filmName with
        | some s => s
        | none => "Unknown"
    (t, match d.releaseYearAttr with
        | some y => y
        | none => "")
  | none =>
    match item.imgAlt with
    | some alt =>
      (match alt with
       | some a => a
       | none => "Unknown", "")
    | none => ("Unknown", "")

/-- Index of the last occurrence of a character. -/
def lastIdxOf (c : Char) (l : List Char) : Option Nat :=
  (List.range l.length).reverse.find? (fun i => l.getD i ' ' == c)

/-- The cleanup of titles ending in a parenthesized 4-digit year: rsplit at
the last opening paren, rstrip closing parens from the tail, and when that
leaves a 4-digit number, strip it from the title and use it as the year if
no year was set. -/
def cleanTitleYear (title year : String) : String × String :=
  if !title.toList.isEmpty && pyEndsWith title ")" && title.toList.contains '(' then
    match lastIdxOf '(' title.toList with
    | some i =>
      let left := String.mk (title.toList.take i)
      let possibleYear := pyRstripChar ')' (String.mk (title.toList.drop (i+1)))
      if pyIsDigit possibleYear && possibleYear.toList.length == 4 then
        (pyStrip left, if year.toList.isEmpty then possibleYear else year)
      else (title, year)
    | none => (title, year)
  else (title, year)

/-- The markup shapes whose parenthesized-year cleanup empties the title:
everything before the last opening paren is whitespace and everything after
it rstrips to a 4-digit number. -/
def stripWouldEmpty (t : String) : Bool :=
  !t.toList.isEmpty && pyEndsWith t ")" && t.toList.contains '(' &&
    (match lastIdxOf '(' t.toList with
     | some i =>
       let possibleYear := pyRstripChar ')' (String.mk (t.toList.drop (i+1)))
       pyIsDigit possibleYear && possibleYear.toList.length == 4 &&
         (pyStrip (String.mk (t.toList.take i))).toList.isEmpty
     | none => false)

/-- The per-item body of the scrape_films_page loop; none = the item is
skipped because its title stayed Unknown. -/
def processFilmsItem (db : List CatalogEntry) (item : FilmsItem) : Option Entry :=
  let ty := filmsRawTitleYear item
  if ty.1 == "Unknown" then none
  else
    let ty2 := cleanTitleYear ty.1 ty.2
    let rating := match item.viewingRatingClasses with
      | some cls => ratingFromClasses cls
      | none => 0
    some { title := ty2.1, year := ty2.2, rating := rating, date := none,
           genre := infer_genre db ty2.1 }

/-- Scraper.scrape_films_page. Only a 404 status short-circuits; any other
status (200 or not) proceeds to parse the body. A raised transport error is
caught by the outer except and gives the empty page. -/
def scrape_films_page (db : List CatalogEntry)
    (fetch : Except Unit (Nat × FilmsPage)) : ScrapeResult :=
  match fetch with
  | .error _ => { entries := [], has_next := false }
  | .ok (status, page) =>
    if status == 404 then { entries := [], has_next := false }
    else { entries := page.items.filterMap (processFilmsItem db),
           has_next := page.hasNextLink }

/-! ## The merge step of sync_batch (app.py lines 89-103) -/

/-- The lowercased titles of a collection, as collected into seen_titles
(membership is all the Python set is used for). -/
def seenTitles (c : List Entry) : List String :=
  c.map (fun m => pyLower m.title)

/-- The dedup loop of sync_batch: an incoming entry is appended to
unique_entries iff its lowercased title is not in seen; appended entries
add their lowercased title to seen. -/
def dedupLoop (seen : List String) : List Entry → List Entry
  | [] => []
  | e :: rest =>
    if pyLower e.title ∈ seen then dedupLoop seen rest
    else e :: dedupLoop (pyLower e.title :: seen) rest

/-- The merge step of sync_batch (app.py lines 89-103): returns the updated
collection (current_watched after extend) and the truly-new entries
(unique_entries). -/
def merge (c : List Entry) (newEntries : List Entry) : List Entry × List Entry :=
  let u := dedupLoop (seenTitles c) newEntries
  (c ++ u, u)

/-- The dedup invariant: at most one entry per lowercased title. -/
def NodupTitles (c : List Entry) : Prop := (seenTitles c).Nodup

/-- Collections reachable from the empty collection by merge steps, the
only way sync_batch ever grows the watched list. -/
inductive Reachable : List Entry → Prop
  | nil : Reachable []
  | step (c p : List Entry) : Reachable c → Reachable (merge c p).1

/-! ## Genre evolution (DataEngine.get_genre_evolution) -/

/-- Insertion-ordered dict from genre names to counts. -/
abbrev GenreDict := List (String × Nat)

/-- Insertion-ordered dict from period keys to genre dicts. -/
abbrev EvoDict := List (String × GenreDict)

def monthNames : List String :=
  ["Jan", "Feb", "Mar", "Apr", "May", "Jun", "Jul", "Aug", "Sep", "Oct", "Nov", "Dec"]

/-- Python dict increment d[k] = d.get(k, 0) + 1, keeping insertion order. -/
def dictIncr (d : GenreDict) (k : String) : GenreDict :=
  if (d.find? (fun p => p.1 == k)).isSome then
    d.map (fun p => if p.1 == k then (p.1, p.2 + 1) else p)
  else d ++ [(k, 1)]

/-- The `if key not in evolution: evolution[key] = {}` step. -/
def evoSeed (evo : EvoDict) (k : String) : EvoDict :=
  if (evo.find? (fun p => p.1 == k)).isSome then evo else evo ++ [(k, [])]

/-- Increment one genre under one period key (the key is present). -/
def evoIncr (evo : EvoDict) (k g : String) : EvoDict :=
  evo.map (fun p => if p.1 == k then (p.1, dictIncr p.2 g) else p)

/-- Python list indexing with a possibly negative index; error is a raised
IndexError. -/
def pyIndex (l : List String) (i : Int) : Except Unit String :=
  let j : Int := if i < 0 then i + l.length else i
  if j < 0 then .error ()
  else
    match l.get? j.toNat with
    | some a => .ok a
    | none => .error ()

/-- The year-filter comprehension of get_genre_evolution:
`[m for m in watched_movies if m['date'].startswith(str(year_filter))]`.
An entry whose date is None raises AttributeError (error) because None has
no startswith. -/
def filterByYearStrict (yf : String) : List Entry → Except Unit (List Entry)
  | [] => .ok []
  | m :: rest =>
    match m.date with
    | none => .error ()
    | some d => do
      let rest? ← filterByYearStrict yf rest
      pure (if pyStartsWith d yf then m :: rest? else rest?)

/-- The per-entry key computation of the evolution loop: split the date on
dashes, always compute int(date_parts[1]) - 1 (IndexError when the second
field is missing, ValueError when it is not numeric), then index the month
names when a year filter is active, else use the year field. -/
def evolutionKey (yearFilter : Option String) (d : String) : Except Unit String :=
  let dateParts := pySplitChar '-' d
  let y := dateParts.getD 0 ""
  match dateParts.get? 1 with
  | none => .error ()
  | some p1 =>
    match pyInt? p1 with
    | none => .error ()
    | some n =>
      let monthIdx : Int := (n : Int) - 1
      match yearFilter with
      | some _ => pyIndex monthNames monthIdx
      | none => .ok y

/-- The inner genre loop: count every genre except Uncategorized. -/
def genreFold (evo : EvoDict) (k : String) (gs : List String) : EvoDict :=
  gs.foldl (fun acc g => if g == "Uncategorized" then acc else evoIncr acc k g) evo

/-- The main loop of get_genre_evolution over the filtered entries; a falsy
(missing or empty) date is skipped. -/
def evolutionLoop (yearFilter : Option String) (evo : EvoDict) :
    List Entry → Except Unit EvoDict
  | [] => .ok evo
  | m :: rest =>
    match m.date with
    | none => evolutionLoop yearFilter evo rest
    | some d =>
      if d.toList.isEmpty then evolutionLoop yearFilter evo rest
      else do
        let k ← evolutionKey yearFilter d
        evolutionLoop yearFilter (genreFold (evoSeed evo k) k m.genre) rest

/-- DataEngine.get_genre_evolution. Without a filter it buckets by year;
with a filter it first runs the strict startswith comprehension (which
raises on undated entries), pre-seeds the twelve month keys, and buckets by
month name. error models an uncaught exception escaping the method. -/
def get_genre_evolution (watched : List Entry) (yearFilter : Option String) :
    Except Unit EvoDict :=
  match yearFilter with
  | some yf => do
    let target ← filterByYearStrict yf watched
    evolutionLoop yearFilter (monthNames.map (fun m => (m, ([] : GenreDict)))) target
  | none => evolutionLoop yearFilter [] watched

/-! ## Hydration (DataEngine._hydrate_with_tmdb) -/

/-- One TMDB search result, abstracted to the attributes process_movie
reads; none models a missing attribute (the hasattr guards). -/
structure TmdbResult where
  poster_path : Option String
  release_date : Option String
  genre_ids : Option (List Nat)
deriving Repr, DecidableEq

/-- Lookup in the genre-id-to-name map. -/
def genreMapGet (gm : List (Nat × String)) (gid : Nat) : Option String :=
  (gm.find? (fun p => p.1 == gid)).map (fun p => p.2)

/-- The hydration candidate test of _hydrate_with_tmdb: genre still the
Uncategorized default, or a falsy (missing or empty) poster_url. -/
def isHydrateCandidate (m : Entry) : Bool :=
  m.genre == ["Uncategorized"] ||
    (match m.poster_url with
     | some p => p.toList.isEmpty
     | none => true)

/-- The result-selection step of process_movie: when the entry carries a
truthy year, prefer a result whose release date contains it; otherwise (or
when none matches) fall back to the first result. -/
def pick_match (results : List TmdbResult) (year : String) : Option TmdbResult :=
  match (if !year.toList.isEmpty then
          results.find? (fun r =>
            match r.release_date with
            | some rd => pyContains rd year
            | none => false)
        else none) with
  | some r => some r
  | none => results.head?

/-- First write of the match block: a truthy poster path is stored with the
image-host prefix. -/
def set_poster (r : TmdbResult) (movie : Entry) : Entry :=
  match r.poster_path with
  | some p =>
    if !p.toList.isEmpty then
      { movie with poster_url := some ("https://image.tmdb.org/t/p/w500" ++ p) }
    else movie
  | none => movie

/-- Second write of the match block: a truthy release date is stored. -/
def set_release (r : TmdbResult) (movie : Entry) : Entry :=
  match r.release_date with
  | some rd =>
    if !rd.toList.isEmpty then { movie with release_date := some rd } else movie
  | none => movie

/-- Third write of the match block: with a non-empty genre map, the genre
ids that resolve replace the genre list when any resolve. -/
def set_genres (genreMap : List (Nat × String)) (r : TmdbResult) (movie : Entry) :
    Entry :=
  match r.genre_ids with
  | some gids =>
    if genreMap.isEmpty then movie
    else
      let realGenres := gids.filterMap (fun gid => genreMapGet genreMap gid)
      if realGenres.isEmpty then movie else { movie with genre := realGenres }
  | none => movie

/-- The write-back step of process_movie on a selected result: the three
field writes in source order. -/
def apply_match (genreMap : List (Nat × String)) (r : TmdbResult) (movie : Entry) :
    Entry :=
  set_genres genreMap r (set_release r (set_poster r movie))

/-- The per-candidate worker process_movie. searchResults is the outcome of
the TMDB title search; none models a raised lookup error, swallowed by the
bare except so the entry is returned unchanged. On a match only poster_url,
release_date and genre are written. -/
def process_movie (genreMap : List (Nat × String))
    (searchResults : Option (List TmdbResult)) (movie : Entry) : Entry :=
  match searchResults with
  | none => movie
  | some results =>
    if results.isEmpty then movie
    else
      match pick_match results movie.year with
      | none => movie
      | some r => apply_match genreMap r movie

/-- DataEngine._hydrate_with_tmdb. tmdbKey models the credential check (a
missing key makes the whole call a no-op); genreMapFetch the genre-table
fetch (none = the fetch failed, degrading to the empty map); search the
per-title TMDB lookups. The Python code filters the candidates and mutates
them in place through a worker pool in which each worker only writes the
fields of its own entry, so the net effect on the list is a positionwise
map that processes exactly the candidates. -/
def hydrate_with_tmdb (tmdbKey : Bool) (genreMapFetch : Option (List (Nat × String)))
    (search : String → Option (List TmdbResult)) (movies : List Entry) :
    List Entry :=
  if !tmdbKey then movies
  else
    let genreMap := genreMapFetch.getD []
    movies.map (fun m =>
      if isHydrateCandidate m then process_movie genreMap (search m.title) m else m)

/-! ## Poster lookup and the rating quiz (DataEngine) -/

def placeholderPoster : String := "https://via.placeholder.com/300x450?text=No+Poster"

/-- DataEngine._get_tmdb_poster: placeholder without a key; otherwise the
first search result with a truthy poster path wins, and empty results, a
falsy path or a raised error (search = none) fall back to the placeholder. -/
def get_tmdb_poster (tmdbKey : Bool) (search : String → Option (List TmdbResult))
    (title : String) : String :=
  if !tmdbKey then placeholderPoster
  else
    match search title with
    | none => placeholderPoster
    | some results =>
      match results.head? with
      | none => placeholderPoster
      | some r =>
        match r.poster_path with
        | some p =>
          if !p.toList.isEmpty then "https://image.tmdb.org/t/p/w500" ++ p
          else placeholderPoster
        | none => placeholderPoster

/-- The quiz payload returned by _get_rating_quiz. -/
structure QuizQuestion where
  question : String
  options : List String
  correct_index : Nat
  movie_title : String
  poster_url : String
deriving Repr, DecidableEq

/-- The distractor loop `while len(options) < 4`. stream carries the
successive random.randint(1, 10) draws (each contributing draw / 2.0); a
draw already present is skipped. The loop is modeled on a finite draw
stream long enough to reach four options. -/
def buildOptions (stream : List Nat) (acc : List ℚ) : List ℚ :=
  match stream with
  | [] => acc
  | r :: rest =>
    if 4 ≤ acc.length then acc
    else if pyHalf r ∈ acc then buildOptions rest acc
    else buildOptions rest (acc ++ [pyHalf r])

/-- Python float formatting f-string for the exact half values the quiz
handles: whole values print with .0, half values with .5. -/
def formatHalf (q : ℚ) : String :=
  if q.den == 1 then Nat.repr q.num.toNat ++ ".0"
  else Nat.repr (q.num.toNat / 2) ++ ".5"

/-- list.index for the shuffled options (the sought value is present
whenever the shuffle permutes). -/
def listIndexOf (q : ℚ) : List ℚ → Nat
  | [] => 0
  | x :: xs => if x == q then 0 else listIndexOf q xs + 1

/-- DataEngine._get_rating_quiz. pickW / pickDB are the random.choice
indices, mock the synthesized rating drawn for the no-data case, stream the
distractor draws and shuffle the random.shuffle permutation. none models
the IndexError of random.choice on an empty sequence. In the empty-watched
branch the picked fallback-DB record itself is written
(target_movie['rating'] = user_rating), so the returned database differs
from the input one there. -/
def get_rating_quiz (tmdbKey : Bool) (search : String → Option (List TmdbResult))
    (watched : List Entry) (db : List CatalogEntry)
    (pickW pickDB : Nat) (mock : ℚ) (stream : List Nat)
    (shuffle : List ℚ → List ℚ) : Option (QuizQuestion × List CatalogEntry) :=
  let pick : Option (String × ℚ × List CatalogEntry) :=
    if !watched.isEmpty then
      match watched.get? pickW with
      | some target => some (target.title, target.rating, db)
      | none => none
    else
      match db.get? pickDB with
      | some rec => some (rec.title, mock, db.set pickDB { rec with rating := some mock })
      | none => none
  match pick with
  | none => none
  | some (title, correct, db1) =>
    let poster0 := get_tmdb_poster tmdbKey search title
    let poster :=
      if pyContains poster0 "via.placeholder.com" then
        match db1.find? (fun m => pyLower m.title == pyLower title) with
        | some dbm => dbm.poster_url
        | none => poster0
      else poster0
    let options := shuffle (buildOptions stream [correct])
    some ({ question := "You watched \x27" ++ title ++ "\x27. What star rating did you give it?",
            options := options.map (fun o => formatHalf o ++ " stars"),
            correct_index := listIndexOf correct options,
            movie_title := title,
            poster_url := poster }, db1)

/-- DataEngine.get_quiz_question just delegates to the rating quiz. -/
def get_quiz_question (tmdbKey : Bool) (search : String → Option (List TmdbResult))
    (watched : List Entry) (db : List CatalogEntry)
    (pickW pickDB : Nat) (mock : ℚ) (stream : List Nat)
    (shuffle : List ℚ → List ℚ) : Option (QuizQuestion × List CatalogEntry) :=
  get_rating_quiz tmdbKey search watched db pickW pickDB mock stream shuffle

/-! ## Recommendations (DataEngine.get_recommendations) -/

/-- The recommendation payload entries. -/
structure RecOut where
  title : String
  year : String
  poster_url : String
deriving Repr, DecidableEq

/-- The normalize helper of get_recommendations:
re.sub removes everything outside lowercase letters and digits after
str.lower. -/
def normalizeTitle (t : String) : String :=
  String.mk ((pyLower t).toList.filter
    (fun c => ('a' ≤ c && c ≤ 'z') || ('0' ≤ c && c ≤ '9')))

/-- Stable descending insertion of one counted genre. -/
def insertDesc (p : String × Nat) : GenreDict → GenreDict
  | [] => [p]
  | q :: rest => if q.2 < p.2 then p :: q :: rest else q :: insertDesc p rest

/-- Python sorted(items, key=count, reverse=True): stable, descending by
count (Timsort is stable; any stable sort gives the same list). -/
def sortByCountDesc (l : GenreDict) : GenreDict :=
  l.foldl (fun acc p => insertDesc p acc) []

/-- DataEngine.get_recommendations. search feeds the per-candidate poster
refresh, shuffle models random.shuffle on the candidate list. -/
def get_recommendations (tmdbKey : Bool)
    (search : String → Option (List TmdbResult))
    (shuffle : List CatalogEntry → List CatalogEntry)
    (watched : List Entry) (db : List CatalogEntry) : List RecOut :=
  if watched.isEmpty then []
  else
    let watchedTitles := watched.map (fun m => normalizeTitle m.title)
    let recentBatch := watched.take 25
    let genreCounts := recentBatch.foldl (fun acc m =>
      m.genre.foldl (fun acc2 g =>
        if g == "Uncategorized" then acc2 else dictIncr acc2 g) acc) []
    let topGenres := ((sortByCountDesc genreCounts).take 5).map (fun p => p.1)
    let recCandidates := db.filter (fun movie =>
      !(watchedTitles.contains (normalizeTitle movie.title)) &&
        (topGenres.isEmpty || movie.genre.any (fun g => topGenres.contains g)))
    let selected := (shuffle recCandidates).take 10
    selected.map (fun m =>
      let tmdbPoster := get_tmdb_poster tmdbKey search m.title
      { title := m.title, year := m.year,
        poster_url := if !(pyContains tmdbPoster "via.placeholder.com") then tmdbPoster
          else m.poster_url })

/-! ## Concrete inputs used to instantiate the theorems -/

/-- A TMDB search that always fails, for offline instantiations. -/
def searchNone : String → Option (List TmdbResult) := fun _ => none

/-- A well-formed diary row (diary path carrying year, month and day). -/
def rowGoodC1 : DiaryRow :=
  { dateCell := some (some (some "/u/films/diary/for/2024/03/15/")),
    nameText := some "Good Film", releaseYearText := some "2020",
    ratingClasses := some ["rating", "rated-7"] }

/-- A diary row whose date link path has no 4-digit segment, so its date
cannot be parsed. -/
def rowBadC1 : DiaryRow :=
  { dateCell := some (some (some "/u/films/diary/for/march/extra/")),
    nameText := some "Bad Film", releaseYearText := some "2021",
    ratingClasses := none }

/-- The entry the well-formed diary row parses to. -/
def entryGoodC1 : Entry :=
  { title := "Good Film", year := "2020", rating := pyHalf 7,
    date := some "2024-03-15", genre := ["Uncategorized"] }

/-- Concrete dated diary entry for the merge theorems. -/
def entryDated : Entry :=
  { title := "Film", year := "2024", rating := pyHalf 7,
    date := some "2024-03-15", genre := ["Uncategorized"] }

/-- Concrete undated films-page entry with the same case-folded title. -/
def entryUndated : Entry :=
  { title := "FILM", year := "2024", rating := 0, date := none,
    genre := ["Uncategorized"] }

/-- An undated entry (films-page shaped) fed to get_genre_evolution. -/
def entryUndatedC5 : Entry :=
  { title := "Dune", year := "2021", rating := pyHalf 8, date := none,
    genre := ["Uncategorized"] }

/-- The same entry with a parsable diary date. -/
def entryDatedC5 : Entry :=
  { title := "Dune", year := "2021", rating := pyHalf 8,
    date := some "2024-03-15", genre := ["Uncategorized"] }

/-- A one-record fallback database for the quiz theorems. -/
def catAlpha : CatalogEntry :=
  { title := "Alpha", year := "2001", genre := ["Drama"], poster_url := "a.jpg" }

def dbQuiz : List CatalogEntry := [catAlpha]

/-- The database after the quiz mutated its only record. -/
def dbQuizMutated : List CatalogEntry :=
  [{ title := "Alpha", year := "2001", genre := ["Drama"], poster_url := "a.jpg",
     rating := some (pyHalf 7) }]

/-- A watched entry for the non-empty-watched quiz branch. -/
def entryBetaW : Entry :=
  { title := "Beta", year := "1999", rating := pyHalf 7, date := none,
    genre := ["Drama"] }

/-- The quiz built from the watched entry Beta. -/
def quizQ1 : QuizQuestion :=
  { question := "You watched \x27Beta\x27. What star rating did you give it?",
    options := ["3.5 stars", "0.5 stars", "1.0 stars", "1.5 stars"],
    correct_index := 0, movie_title := "Beta",
    poster_url := placeholderPoster }

/-- The quiz built from the fallback record Alpha with synthesized rating. -/
def quizQ2 : QuizQuestion :=
  { question := "You watched \x27Alpha\x27. What star rating did you give it?",
    options := ["3.5 stars", "0.5 stars", "1.0 stars", "1.5 stars"],
    correct_index := 0, movie_title := "Alpha", poster_url := "a.jpg" }

/-- A films item whose body parses to an entry (used for the status-handling
counterexample). -/
def itemC7 : FilmsItem :=
  { divs := [{ itemName := some "Gamma", filmName := none,
               releaseYearAttr := some "1999", isFilmPoster := false }],
    imgAlt := none, viewingRatingClasses := some ["rating", "rated-8"] }

/-- The entry itemC7 parses to. -/
def entryC7 : Entry :=
  { title := "Gamma", year := "1999", rating := pyHalf 8, date := none,
    genre := ["Uncategorized"] }

/-- An empty diary page body. -/
def pageDiaryW : DiaryPage := { rows := [], hasNextLink := true }

/-- A films page body holding itemC7. -/
def pageFilmsW : FilmsPage := { items := [itemC7], hasNextLink := true }

/-- A films item with an empty alt text and a rated-11 token. -/
def itemC8 : FilmsItem :=
  { divs := [], imgAlt := some (some ""),
    viewingRatingClasses := some ["rating", "rated-11"] }

/-- The entry itemC8 parses to: empty title, rating 5.5. -/
def entryC8 : Entry :=
  { title := "", year := "", rating := pyHalf 11, date := none,
    genre := ["Uncategorized"] }

/-- A well-formed diary row for the amended-invariant witness. -/
def rowW8 : DiaryRow :=
  { dateCell := some (some (some "/u/2024/03/15/")), nameText := some "Good",
    releaseYearText := none, ratingClasses := some ["rated-9"] }

/-- The entry rowW8 parses to. -/
def entryW8 : Entry :=
  { title := "Good", year := "", rating := pyHalf 9,
    date := some "2024-03-15", genre := ["Uncategorized"] }

/-- A films item for the amended-invariant witness. -/
def itemW8 : FilmsItem :=
  { divs := [{ itemName := some "Dune (2021)", filmName := none,
               releaseYearAttr := none, isFilmPoster := false }],
    imgAlt := none, viewingRatingClasses := none }

/-- The entry itemW8 parses to (year stripped from the title). -/
def entryW8F : Entry :=
  { title := "Dune", year := "2021", rating := 0, date := none,
    genre := ["Uncategorized"] }

/-- An unhydrated entry for the hydration witness. -/
def entryH : Entry :=
  { title := "Dune", year := "2021", rating := pyHalf 8,
    date := some "2024-03-15", genre := ["Uncategorized"] }

/-- A TMDB result matching entryH. -/
def resH : TmdbResult :=
  { poster_path := some "/p.jpg", release_date := some "2021-10-22",
    genre_ids := some [878] }

def searchH : String → Option (List TmdbResult) := fun _ => some [resH]

def gmH : Option (List (Nat × String)) := some [(878, "Science Fiction")]

/-- entryH after hydration against resH. -/
def entryHOut : Entry :=
  { title := "Dune", year := "2021", rating := pyHalf 8,
    date := some "2024-03-15", genre := ["Science Fiction"],
    poster_url := some "https://image.tmdb.org/t/p/w500/p.jpg",
    release_date := some "2021-10-22" }

/-- A watched entry whose normalized title collides with a candidate. -/
def entryAlphaW : Entry :=
  { title := "Alpha!", year := "2001", rating := 0, date := none,
    genre := ["Uncategorized"] }

def watchedW : List Entry := [entryAlphaW]

/-- A fallback database holding a colliding and a fresh candidate. -/
def dbRecs : List CatalogEntry :=
  [{ title := "alpha", year := "2001", genre := ["Drama"], poster_url := "a.jpg" },
   { title := "Beta", year := "2002", genre := ["Action"], poster_url := "b.jpg" }]

/-- The only recommendation the concrete inputs admit. -/
def recBeta : RecOut := { title := "Beta", year := "2002", poster_url := "b.jpg" }

/-! ## Basic lemmas -/

/-- The value the Python float n / 2.0 denotes. -/
lemma pyHalf_eq_div (n : Nat) : pyHalf n = (n : ℚ) / 2 := by
  rw [pyHalf, Rat.mkRat_eq_div]
  push_cast
  ring

lemma dedupLoop_covers (seen : List String) (l : List Entry) :
    ∀ e ∈ l, pyLower e.title ∈ seen ∨
      pyLower e.title ∈ (dedupLoop seen l).map (fun x => pyLower x.title) := by
  induction l generalizing seen with
  | nil => intro e he; cases he
  | cons a rest ih =>
    intro e he
    by_cases ha : pyLower a.title ∈ seen
    · simp only [dedupLoop, if_pos ha]
      rcases List.mem_cons.mp he with he | he
      · left; exact he ▸ ha
      · exact ih seen e he
    · simp only [dedupLoop, if_neg ha, List.map_cons]
      rcases List.mem_cons.mp he with he | he
      · right; simp [he]
      · rcases ih (pyLower a.title :: seen) e he with h | h
        · rcases List.mem_cons.mp h with h | h
          · right; simp [h]
          · left; exact h
        · right; exact List.mem_cons_of_mem _ h

lemma dedupLoop_eq_nil_of_seen (seen : List String) (l : List Entry)
    (h : ∀ e ∈ l, pyLower e.title ∈ seen) : dedupLoop seen l = [] := by
  induction l with
  | nil => rfl
  | cons a rest ih =>
    have ha : pyLower a.title ∈ seen := h a (List.mem_cons_self a rest)
    simp only [dedupLoop, if_pos ha]
    exact ih (fun e he => h e (List.mem_cons_of_mem a he))

lemma dedupLoop_fresh (seen : List String) (l : List Entry) :
    ((dedupLoop seen l).map (fun x => pyLower x.title)).Nodup ∧
      ∀ e ∈ dedupLoop seen l, pyLower e.title ∉ seen := by
  induction l generalizing seen with
  | nil => exact ⟨List.nodup_nil, by intro e he; cases he⟩
  | cons a rest ih =>
    by_cases ha : pyLower a.title ∈ seen
    · simpa only [dedupLoop, if_pos ha] using ih seen
    · have ih2 := ih (pyLower a.title :: seen)
      simp only [dedupLoop, if_neg ha, List.map_cons]
      constructor
      · refine List.nodup_cons.mpr ⟨?_, ih2.1⟩
        intro hmem
        rcases List.mem_map.mp hmem with ⟨x, hx, hxl⟩
        exact (ih2.2 x hx) (by simp [hxl])
      · intro e he
        rcases List.mem_cons.mp he with he | he
        · exact he ▸ ha
        · intro hcontra
          exact (ih2.2 e he) (List.mem_cons_of_mem _ hcontra)

lemma seenTitles_merge (c p : List Entry) :
    seenTitles (merge c p).1 =
      seenTitles c ++ (dedupLoop (seenTitles c) p).map (fun x => pyLower x.title) := by
  simp [merge, seenTitles]

/-! ## C2 -/

/-- C2: merging a scraped page P into a collection C and then merging P
again into the result yields zero truly-new entries on the second merge and
leaves the collection unchanged (re-delivery of an already-merged page is
idempotent). -/
theorem merge_idempotent (c p : List Entry) :
    merge (merge c p).1 p = ((merge c p).1, []) := by
  have hnil : dedupLoop (seenTitles (merge c p).1) p = [] := by
    apply dedupLoop_eq_nil_of_seen
    intro e he
    rw [seenTitles_merge]
    rcases dedupLoop_covers (seenTitles c) p e he with h | h
    · exact List.mem_append_left _ h
    · exact List.mem_append_right _ h
  simp only [merge] at hnil ⊢
  simp [hnil]

/-! ## C3 -/

/-- C3: for entries e1 (dated) and e2 (undated) sharing a case-folded title
that is not yet in the collection, merging e1 then e2 keeps e1 untouched
(with its date) and rejects e2; merging e2 then e1 keeps e2 untouched
(without a date) and rejects e1 — precedence is strictly insertion order
and an existing entry is never overwritten by a later arrival. -/
theorem merge_insertion_precedence (c : List Entry) (e1 e2 : Entry) (d : String)
    (hk : pyLower e1.title = pyLower e2.title)
    (hd1 : e1.date = some d) (hd2 : e2.date = none)
    (hc : pyLower e1.title ∉ seenTitles c) :
    (merge c [e1] = (c ++ [e1], [e1]) ∧ merge (c ++ [e1]) [e2] = (c ++ [e1], [])) ∧
    (merge c [e2] = (c ++ [e2], [e2]) ∧ merge (c ++ [e2]) [e1] = (c ++ [e2], [])) := by
  have hc2 : pyLower e2.title ∉ seenTitles c := hk ▸ hc
  have h1 : pyLower e2.title ∈ seenTitles (c ++ [e1]) := by
    simp [seenTitles, ← hk]
  have h2 : pyLower e1.title ∈ seenTitles (c ++ [e2]) := by
    simp [seenTitles, hk]
  refine ⟨⟨?_, ?_⟩, ⟨?_, ?_⟩⟩ <;>
    simp [merge, dedupLoop, hc, hc2, h1, h2]

/-- Witness for merge_insertion_precedence at a concrete dated/undated pair
over the empty collection. -/
theorem merge_insertion_precedence_witness :
    (merge [] [entryDated] = ([entryDated], [entryDated]) ∧
      merge [entryDated] [entryUndated] = ([entryDated], [])) ∧
    (merge [] [entryUndated] = ([entryUndated], [entryUndated]) ∧
      merge [entryUndated] [entryDated] = ([entryUndated], [])) := by
  have h := merge_insertion_precedence [] entryDated entryUndated "2024-03-15"
    (by decide) (by decide) (by decide) (by simp [seenTitles])
  simpa using h

/-! ## C4 -/

/-- C4: every collection reachable from the empty collection by merges of
arbitrary entry lists (including lists repeating a title internally)
contains at most one entry per case-folded title, and every merge preserves
this invariant. -/
theorem reachable_nodupTitles (c : List Entry) (h : Reachable c) : NodupTitles c := by
  induction h with
  | nil => exact List.nodup_nil
  | step c p _ ih =>
    have hfresh := dedupLoop_fresh (seenTitles c) p
    rw [NodupTitles, seenTitles_merge]
    refine List.Nodup.append ih hfresh.1 ?_
    intro a ha hb
    rcases List.mem_map.mp hb with ⟨x, hx, hxl⟩
    exact (hfresh.2 x hx) (hxl ▸ ha)

/-- Witness for reachable_nodupTitles: a collection built by two concrete
merges, the second repeating a title internally, satisfies the invariant. -/
theorem reachable_nodupTitles_witness :
    NodupTitles (merge (merge [] [entryDated]).1 [entryUndated, entryUndated]).1 :=
  reachable_nodupTitles _ (Reachable.step _ _ (Reachable.step _ _ Reachable.nil))

/-! ## C1 -/

/-- C1: contrary to the claim, a diary row whose date link path yields no
parsable date is not emitted with date = None; the AttributeError from
strftime on None escapes to the outer except of scrape_page, which drops
the entire page: together with the malformed row, the well-formed rows of
the page are lost too (second conjunct: the well-formed row alone parses
fine on the same page). -/
theorem diary_unparsable_date_aborts_page :
    scrape_page [] (.ok (200, { rows := [rowGoodC1, rowBadC1], hasNextLink := true }))
      = { entries := [], has_next := false } ∧
    scrape_page [] (.ok (200, { rows := [rowGoodC1], hasNextLink := true }))
      = { entries := [entryGoodC1], has_next := true } := by
  constructor <;> rfl

/-! ## C5 -/

/-- C5: contrary to the claim, get_genre_evolution with a year filter does
not skip entries lacking a parsable date: the startswith comprehension
raises AttributeError on a date of None (first conjunct); with only dated
entries the 12 canonical month keys are all present, empty months mapping
to empty genre maps (second conjunct). -/
theorem evolution_year_filter_crashes_on_undated :
    get_genre_evolution [entryUndatedC5] (some "2024") = .error () ∧
    get_genre_evolution [entryDatedC5] (some "2024")
      = .ok (monthNames.map (fun m => (m, ([] : GenreDict)))) := by
  constructor <;> rfl

/-! ## C7 -/

/-- C7 counterexample: a films-page fetch with status 500 is not turned
into an empty page; its body is parsed and yields entries with a live
has_next flag, contradicting the claim that any non-200 status yields
empty entries with hasNext = false for both page kinds. -/
theorem films_non200_parsed_counterexample :
    scrape_films_page [] (.ok (500, pageFilmsW))
      = { entries := [entryC7], has_next := true } ∧
    ({ entries := [entryC7], has_next := true } : ScrapeResult)
      ≠ { entries := [], has_next := false } := by
  exact ⟨rfl, by decide⟩

/-- C7 amended: for diary pages a thrown transport error, a 404 and any
other non-200 status all yield empty entries with has_next = false; for
films pages a thrown transport error and a 404 yield empty entries with
has_next = false, but any other status — 200 or not — is parsed as a
normal page, the body alone determining entries and has_next. In none of
these cases does the Scraper raise to its caller. -/
theorem scraper_transport_handling_amended :
    (∀ db e, scrape_page db (.error e) = { entries := [], has_next := false }) ∧
    (∀ db status page, status ≠ 200 →
      scrape_page db (.ok (status, page)) = { entries := [], has_next := false }) ∧
    (∀ db e, scrape_films_page db (.error e) = { entries := [], has_next := false }) ∧
    (∀ db page, scrape_films_page db (.ok (404, page))
      = { entries := [], has_next := false }) ∧
    (∀ db status page, status ≠ 404 →
      scrape_films_page db (.ok (status, page))
        = { entries := page.items.filterMap (processFilmsItem db),
            has_next := page.hasNextLink }) := by
  refine ⟨fun _ _ => rfl, ?_, fun _ _ => rfl, fun _ _ => rfl, ?_⟩
  · intro db status page h
    by_cases h404 : status = 404
    · subst h404; rfl
    · simp only [scrape_page]
      rw [if_neg (by simpa using h404), if_pos (by simpa using h)]
  · intro db status page h
    simp only [scrape_films_page]
    rw [if_neg (by simpa using h)]

/-- Witness for scraper_transport_handling_amended at status 500 for both
page kinds. -/
theorem scraper_transport_handling_amended_witness :
    ((500 : Nat) ≠ 200 ∧
      scrape_page [] (.ok (500, pageDiaryW)) = { entries := [], has_next := false }) ∧
    ((500 : Nat) ≠ 404 ∧
      scrape_films_page [] (.ok (500, pageFilmsW))
        = { entries := [entryC7], has_next := true }) := by
  refine ⟨⟨by decide, ?_⟩, ⟨by decide, ?_⟩⟩
  · exact scraper_transport_handling_amended.2.1 [] 500 pageDiaryW (by decide)
  · exact (scraper_transport_handling_amended.2.2.2.2 [] 500 pageFilmsW (by decide)).trans rfl

/-! ## C8 -/

/-- C8 counterexample: a films item carrying an empty img alt text and a
rated-11 class token is emitted with an empty title and rating 5.5, which
is outside the half-star lattice 0.0..5.0 — contradicting the claim that
every emitted entry has a non-empty title and a lattice rating. -/
theorem parser_entry_invariants_counterexample :
    scrape_films_page [] (.ok (200, { items := [itemC8], hasNextLink := false }))
      = { entries := [entryC8], has_next := false } ∧
    entryC8.title = "" ∧ entryC8.rating ∉ halfStarLattice := by
  refine ⟨rfl, rfl, by decide⟩

lemma zero_isHalfStep : isHalfStep (0 : ℚ) := ⟨0, by decide⟩

lemma ratingFromClasses_isHalfStep (classes : List String) :
    isHalfStep (ratingFromClasses classes) := by
  rcases hf : classes.find? (fun cls => pyStartsWith cls "rated-") with _ | cls
  · simp only [ratingFromClasses, hf]
    exact ⟨0, by decide⟩
  · simp only [ratingFromClasses, hf]
    rcases hp : pyInt? ((pySplitChar '-' cls).getD 1 "") with _ | n
    · simp only [hp]; exact ⟨0, by decide⟩
    · simp only [hp]; exact ⟨n, rfl⟩

lemma cleanTitleYear_ne_empty (t y : String) (ht : t ≠ "")
    (hs : stripWouldEmpty t = false) : (cleanTitleYear t y).1 ≠ "" := by
  unfold cleanTitleYear
  by_cases hc : (!t.toList.isEmpty && pyEndsWith t ")" && t.toList.contains '(') = true
  · rw [if_pos hc]
    rcases hL : lastIdxOf '(' t.toList with _ | i
    · simp only [hL]; exact ht
    · simp only [hL]
      by_cases hd : (pyIsDigit (pyRstripChar ')' (String.mk (t.toList.drop (i+1)))) &&
          (pyRstripChar ')' (String.mk (t.toList.drop (i+1)))).toList.length == 4) = true
      · rw [if_pos hd]
        intro hempty
        have hempty2 : pyStrip (String.mk (t.toList.take i)) = "" := hempty
        have htrue : stripWouldEmpty t = true := by
          simp only [stripWouldEmpty, hL, Bool.and_eq_true] at hc hd ⊢
          exact ⟨hc, hd, by rw [hempty2]; rfl⟩
        rw [htrue] at hs
        exact Bool.noConfusion hs
      · rw [if_neg hd]; exact ht
  · rw [if_neg hc]; exact ht

/-- C8 amended: every entry emitted by either parser has a rating of the
form n / 2.0 for a natural n (0.0 when no rated-n token parses) — but not
necessarily within 0.0..5.0 — and a non-empty title provided the markup
name string it is drawn from is non-empty: for diary rows, the name link
text; for films items, additionally the raw title must not be a string the
parenthesized-year cleanup reduces to emptiness (whitespace before the last
opening paren and a 4-digit year after it). -/
theorem parser_entry_invariants_amended :
    (∀ db row e, processDiaryRow db row = .ok (some e) →
      isHalfStep e.rating ∧ (row.nameText ≠ some "" → e.title ≠ "")) ∧
    (∀ db item e, processFilmsItem db item = some e →
      isHalfStep e.rating ∧
        ((filmsRawTitleYear item).1 ≠ "" →
          stripWouldEmpty (filmsRawTitleYear item).1 = false → e.title ≠ "")) := by
  constructor
  · intro db row e h
    rcases row with ⟨dc, nt, ry, rc⟩
    rcases dc with _ | dc
    · exact absurd h (by simp [processDiaryRow])
    rcases dc with _ | dc
    · exact absurd h (by simp [processDiaryRow])
    rcases dc with _ | href
    · exact absurd h (by simp [processDiaryRow])
    rcases hp : parseDiaryDate href with _ | ymd
    · simp only [processDiaryRow, hp] at h
      exact Except.noConfusion h
    · simp only [processDiaryRow, hp, Except.ok.injEq, Option.some.injEq] at h
      subst h
      constructor
      · rcases rc with _ | cls
        · exact zero_isHalfStep
        · exact ratingFromClasses_isHalfStep cls
      · rcases nt with _ | t
        · intro _ hteq
          have h2 : ("Unknown" : String) = "" := hteq
          exact absurd h2 (by decide)
        · intro hne hteq
          have h2 : t = "" := hteq
          exact hne (congrArg some h2)
  · intro db item e h
    simp only [processFilmsItem] at h
    by_cases hu : ((filmsRawTitleYear item).1 == "Unknown") = true
    · rw [if_pos hu] at h; cases h
    · rw [if_neg hu] at h
      simp only [Option.some.injEq] at h
      subst h
      constructor
      · rcases hrc : item.viewingRatingClasses with _ | cls
        · simp only [hrc]; exact ⟨0, by decide⟩
        · simp only [hrc]; exact ratingFromClasses_isHalfStep cls
      · intro ht hs
        exact cleanTitleYear_ne_empty (filmsRawTitleYear item).1
          (filmsRawTitleYear item).2 ht hs

/-- Witness for parser_entry_invariants_amended at a concrete diary row and
a concrete films item whose title carries a parenthesized year. -/
theorem parser_entry_invariants_amended_witness :
    (processDiaryRow [] rowW8 = .ok (some entryW8) ∧ rowW8.nameText ≠ some "" ∧
      isHalfStep entryW8.rating ∧ entryW8.title ≠ "") ∧
    (processFilmsItem [] itemW8 = some entryW8F ∧
      (filmsRawTitleYear itemW8).1 ≠ "" ∧
      stripWouldEmpty (filmsRawTitleYear itemW8).1 = false ∧
      isHalfStep entryW8F.rating ∧ entryW8F.title ≠ "") := by
  refine ⟨⟨rfl, by decide, ?_, ?_⟩, ⟨rfl, by decide, by decide, ?_, ?_⟩⟩
  · exact (parser_entry_invariants_amended.1 [] rowW8 entryW8 rfl).1
  · exact (parser_entry_invariants_amended.1 [] rowW8 entryW8 rfl).2 (by decide)
  · exact (parser_entry_invariants_amended.2 [] itemW8 entryW8F rfl).1
  · exact (parser_entry_invariants_amended.2 [] itemW8 entryW8F rfl).2
      (by decide) (by decide)

/-! ## C6 -/

/-- C6 counterexample: when the watched collection is empty,
get_quiz_question writes the synthesized rating into the picked fallback-DB
record (target_movie aliases the movies_db entry), so the fallback database
is not left unchanged. -/
theorem quiz_mutates_fallback_db_counterexample :
    (get_quiz_question false searchNone [] dbQuiz 0 0 (pyHalf 7) [1, 2, 3] id).map
        Prod.snd = some dbQuizMutated ∧
    dbQuizMutated ≠ dbQuiz := by
  exact ⟨rfl, by decide⟩

/-- C6 amended: get_rating_quiz (hence get_quiz_question) leaves the
fallback database unchanged whenever the watched collection is non-empty;
when it is empty, the randomly picked fallback record is mutated in place —
its rating field is overwritten with the synthesized rating — and all other
records are unchanged (the result database is exactly the input with that
one record replaced). -/
theorem quiz_fallback_db_frame_amended :
    (∀ tk s watched db pW pDB mock stream sh q db1,
      watched ≠ [] →
      get_rating_quiz tk s watched db pW pDB mock stream sh = some (q, db1) →
      db1 = db) ∧
    (∀ tk s db pW pDB mock stream sh q db1 rec,
      db.get? pDB = some rec →
      get_rating_quiz tk s [] db pW pDB mock stream sh = some (q, db1) →
      db1 = db.set pDB { rec with rating := some mock }) := by
  constructor
  · intro tk s watched db pW pDB mock stream sh q db1 hne h
    have hE : watched.isEmpty = false := by
      cases watched with
      | nil => exact absurd rfl hne
      | cons a l => rfl
    simp only [get_rating_quiz, hE, Bool.not_false, if_true] at h
    rcases hg : watched.get? pW with _ | target
    · rw [hg] at h
      exact Option.noConfusion h
    · rw [hg] at h
      simp only [Option.some.injEq, Prod.mk.injEq] at h
      exact h.2.symm
  · intro tk s db pW pDB mock stream sh q db1 rec hrec h
    unfold get_rating_quiz at h
    rw [hrec] at h
    simp only [List.isEmpty_nil, Bool.not_true, Bool.false_eq_true, if_false,
      Option.some.injEq, Prod.mk.injEq] at h
    exact h.2.symm

/-- Witness for quiz_fallback_db_frame_amended: the non-empty branch keeps
the database, the empty branch rewrites exactly the picked record. -/
theorem quiz_fallback_db_frame_amended_witness :
    (([entryBetaW] : List Entry) ≠ [] ∧
      get_rating_quiz false searchNone [entryBetaW] dbQuiz 0 0 0 [1, 2, 3] id
        = some (quizQ1, dbQuiz) ∧ dbQuiz = dbQuiz) ∧
    (dbQuiz.get? 0 = some catAlpha ∧
      get_rating_quiz false searchNone [] dbQuiz 0 0 (pyHalf 7) [1, 2, 3] id
        = some (quizQ2, dbQuizMutated) ∧
      dbQuizMutated = dbQuiz.set 0 { catAlpha with rating := some (pyHalf 7) }) := by
  refine ⟨⟨by simp, rfl, ?_⟩, ⟨rfl, rfl, ?_⟩⟩
  · exact quiz_fallback_db_frame_amended.1 false searchNone [entryBetaW] dbQuiz
      0 0 0 [1, 2, 3] id quizQ1 dbQuiz (by simp) rfl
  · exact quiz_fallback_db_frame_amended.2 false searchNone dbQuiz
      0 0 (pyHalf 7) [1, 2, 3] id quizQ2 dbQuizMutated catAlpha rfl rfl

/-! ## C9 -/

lemma zip_map_eq {α β : Type _} (f : α → β) :
    ∀ (l : List α) (a : α) (b : β), (a, b) ∈ l.zip (l.map f) → b = f a := by
  intro l
  induction l with
  | nil => intro a b h; cases h
  | cons x xs ih =>
    intro a b h
    rcases List.mem_cons.mp h with h | h
    · injection h with h1 h2
      subst h1
      exact h2
    · exact ih a b h

lemma set_poster_preserves (r : TmdbResult) (m : Entry) :
    (set_poster r m).title = m.title ∧ (set_poster r m).year = m.year ∧
    (set_poster r m).rating = m.rating ∧ (set_poster r m).date = m.date := by
  rcases r with ⟨pp, rd, gi⟩
  cases pp with
  | none => exact ⟨rfl, rfl, rfl, rfl⟩
  | some p =>
    simp only [set_poster]
    split <;> exact ⟨rfl, rfl, rfl, rfl⟩

lemma set_release_preserves (r : TmdbResult) (m : Entry) :
    (set_release r m).title = m.title ∧ (set_release r m).year = m.year ∧
    (set_release r m).rating = m.rating ∧ (set_release r m).date = m.date := by
  rcases r with ⟨pp, rd, gi⟩
  cases rd with
  | none => exact ⟨rfl, rfl, rfl, rfl⟩
  | some d =>
    simp only [set_release]
    split <;> exact ⟨rfl, rfl, rfl, rfl⟩

lemma set_genres_preserves (gm : List (Nat × String)) (r : TmdbResult) (m : Entry) :
    (set_genres gm r m).title = m.title ∧ (set_genres gm r m).year = m.year ∧
    (set_genres gm r m).rating = m.rating ∧ (set_genres gm r m).date = m.date := by
  rcases r with ⟨pp, rd, gi⟩
  cases gi with
  | none => exact ⟨rfl, rfl, rfl, rfl⟩
  | some gs =>
    simp only [set_genres]
    repeat' split
    all_goals exact ⟨rfl, rfl, rfl, rfl⟩

lemma apply_match_preserves (gm : List (Nat × String)) (r : TmdbResult) (m : Entry) :
    (apply_match gm r m).title = m.title ∧
    (apply_match gm r m).year = m.year ∧
    (apply_match gm r m).rating = m.rating ∧
    (apply_match gm r m).date = m.date := by
  have h1 := set_poster_preserves r m
  have h2 := set_release_preserves r (set_poster r m)
  have h3 := set_genres_preserves gm r (set_release r (set_poster r m))
  exact ⟨h3.1.trans (h2.1.trans h1.1), h3.2.1.trans (h2.2.1.trans h1.2.1),
    h3.2.2.1.trans (h2.2.2.1.trans h1.2.2.1),
    h3.2.2.2.trans (h2.2.2.2.trans h1.2.2.2)⟩

lemma process_movie_preserves (gm : List (Nat × String))
    (sr : Option (List TmdbResult)) (m : Entry) :
    (process_movie gm sr m).title = m.title ∧
    (process_movie gm sr m).year = m.year ∧
    (process_movie gm sr m).rating = m.rating ∧
    (process_movie gm sr m).date = m.date := by
  cases sr with
  | none => exact ⟨rfl, rfl, rfl, rfl⟩
  | some results =>
    by_cases hres : results.isEmpty = true
    · simp [process_movie, hres]
    · simp only [process_movie, if_neg hres]
      cases hpm : pick_match results m.year with
      | none => exact ⟨rfl, rfl, rfl, rfl⟩
      | some r => exact apply_match_preserves gm r m

/-- C9: hydration with no key configured is a no-op; with a key it maps the
list positionwise, sending exactly the candidates (genre still the
Uncategorized default or no truthy poster_url) through process_movie;
every non-candidate comes out unchanged, and even for candidates the
title, year, rating and date fields are preserved — only genre, poster_url
and release_date can change. -/
theorem hydrate_selection_and_frame :
    (∀ (gmf : Option (List (Nat × String))) (s : String → Option (List TmdbResult))
      (mv : List Entry), hydrate_with_tmdb false gmf s mv = mv) ∧
    (∀ (gmf : Option (List (Nat × String))) (s : String → Option (List TmdbResult))
      (mv : List Entry), hydrate_with_tmdb true gmf s mv =
      mv.map (fun m => if isHydrateCandidate m then
        process_movie (gmf.getD []) (s m.title) m else m)) ∧
    (∀ (gmf : Option (List (Nat × String))) (s : String → Option (List TmdbResult))
      (mv : List Entry) (m m2 : Entry),
      (m, m2) ∈ mv.zip (hydrate_with_tmdb true gmf s mv) →
      (isHydrateCandidate m = false → m2 = m) ∧
      (m2.title = m.title ∧ m2.year = m.year ∧ m2.rating = m.rating ∧
        m2.date = m.date)) := by
  refine ⟨fun _ _ _ => rfl, fun _ _ _ => rfl, ?_⟩
  intro gmf s mv m m2 hmem
  have hm2 : m2 = if isHydrateCandidate m then
      process_movie (gmf.getD []) (s m.title) m else m :=
    zip_map_eq (fun x => if isHydrateCandidate x then
      process_movie (gmf.getD []) (s x.title) x else x) mv m m2 hmem
  by_cases hc : isHydrateCandidate m = true
  · rw [hm2, if_pos hc]
    exact ⟨fun hfalse => absurd hc (by simp [hfalse]),
      process_movie_preserves (gmf.getD []) (s m.title) m⟩
  · rw [hm2, if_neg hc]
    exact ⟨fun _ => rfl, rfl, rfl, rfl, rfl⟩

/-- Witness for hydrate_selection_and_frame at a concrete candidate entry
whose genre and poster change while title, year, rating and date stay. -/
theorem hydrate_selection_and_frame_witness :
    (entryH, entryHOut) ∈ [entryH].zip (hydrate_with_tmdb true gmH searchH [entryH]) ∧
    (entryHOut.title = entryH.title ∧ entryHOut.year = entryH.year ∧
      entryHOut.rating = entryH.rating ∧ entryHOut.date = entryH.date) := by
  have hmem : (entryH, entryHOut) ∈
      [entryH].zip (hydrate_with_tmdb true gmH searchH [entryH]) := by
    have hhy : hydrate_with_tmdb true gmH searchH [entryH] = [entryHOut] := rfl
    rw [hhy]
    exact List.mem_singleton.mpr rfl
  exact ⟨hmem,
    (hydrate_selection_and_frame.2.2 gmH searchH [entryH] entryH entryHOut hmem).2⟩

/-! ## C10 -/

/-- C10: for a non-empty watched collection (and a shuffle that only
permutes, as random.shuffle does), get_recommendations never returns a
candidate whose normalized title — case-folded and stripped of
non-alphanumeric characters — equals the normalized title of any watched
entry. -/
theorem recommendations_exclude_watched (tk : Bool)
    (s : String → Option (List TmdbResult))
    (shuffle : List CatalogEntry → List CatalogEntry)
    (watched : List Entry) (db : List CatalogEntry)
    (hw : watched ≠ [])
    (hsh : ∀ (l : List CatalogEntry) (x : CatalogEntry), x ∈ shuffle l → x ∈ l) :
    ∀ r ∈ get_recommendations tk s shuffle watched db, ∀ w ∈ watched,
      normalizeTitle r.title ≠ normalizeTitle w.title := by
  intro r hr w hw2 heq
  have hE : watched.isEmpty = false := by
    cases watched with
    | nil => exact absurd rfl hw
    | cons a l => rfl
  simp only [get_recommendations, hE, Bool.false_eq_true, if_false] at hr
  rcases List.mem_map.mp hr with ⟨m, hm, hrm⟩
  have hm3 := hsh _ _ (List.mem_of_mem_take hm)
  have hcond := (List.mem_filter.mp hm3).2
  rw [Bool.and_eq_true] at hcond
  have hnc : (watched.map (fun e => normalizeTitle e.title)).contains
      (normalizeTitle m.title) = false := by simpa using hcond.1
  have hrt : r.title = m.title := by rw [← hrm]
  have hmem2 : normalizeTitle m.title ∈
      watched.map (fun e => normalizeTitle e.title) := by
    rw [hrt] at heq
    rw [heq]
    exact List.mem_map_of_mem _ hw2
  have hx : (watched.map (fun e => normalizeTitle e.title)).contains
      (normalizeTitle m.title) = true := List.elem_eq_true_of_mem hmem2
  rw [hx] at hnc
  exact Bool.noConfusion hnc

/-- Witness for recommendations_exclude_watched: a concrete watched set
colliding with one candidate, the identity shuffle, and the surviving
recommendation. -/
theorem recommendations_exclude_watched_witness :
    (watchedW ≠ [] ∧ recBeta ∈ get_recommendations false searchNone id watchedW dbRecs ∧
      entryAlphaW ∈ watchedW) ∧
    normalizeTitle recBeta.title ≠ normalizeTitle entryAlphaW.title := by
  have hmem : recBeta ∈ get_recommendations false searchNone id watchedW dbRecs := by
    have hre : get_recommendations false searchNone id watchedW dbRecs = [recBeta] := rfl
    rw [hre]
    exact List.mem_singleton.mpr rfl
  refine ⟨⟨by simp [watchedW], hmem, by simp [watchedW]⟩, ?_⟩
  exact recommendations_exclude_watched false searchNone id watchedW dbRecs
    (by simp [watchedW]) (fun l x h => h) recBeta hmem entryAlphaW
    (by simp [watchedW])

end Statsboxd
